import Mathlib

/- Shallow embedding of the parent-side postMessage bridge of the
venyu embed package (the messaging module): structural message
validation, the ready/init handshake, message routing, the auth popup
flow, resize handling and destroy.  JavaScript numbers are modelled as
rationals, window references as natural numbers, and the DOM/browser
side effects of the bridge as an explicit effect trace. -/

namespace VenyuEmbed

/-- JavaScript runtime values, as far as the bridge inspects them:
null, undefined, booleans, numbers (modelled as rationals), strings and
plain objects (finite association lists of string keys). -/
inductive JSValue where
  | null
  | undef
  | bool (b : Bool)
  | num (x : ℚ)
  | str (s : String)
  | obj (fields : List (String × JSValue))

/-- Property lookup on an object field list: the first binding of the
key wins, a missing key reads as undefined (JavaScript semantics). -/
def jsGetF (fields : List (String × JSValue)) (key : String) : JSValue :=
  match fields.find? (fun p => p.1 == key) with
  | some p => p.2
  | none => JSValue.undef

/-- Property access `v[key]` on an arbitrary value: only objects carry
properties here; every other value reads as undefined. -/
def jsGet (v : JSValue) (key : String) : JSValue :=
  match v with
  | JSValue.obj fields => jsGetF fields key
  | _ => JSValue.undef

/-- Protocol version constant of the embed protocol (source constant
PROTOCOL_VERSION = 1). -/
def PROTOCOL_VERSION : ℚ := 1

/-- Namespace carried by every venyu embed message type (source
constant for the reserved message-type namespace, the string
"venyu:"). -/
def MESSAGE_NAMESPACE : String := "venyu:"

/-- Whether the string s starts with the string p (the JavaScript
String.startsWith used by the source), computed on the character
lists so that concrete instances evaluate by reduction. -/
def strStartsWith (s p : String) : Bool :=
  p.data.isPrefixOf s.data

/-- The wire message shape of the embed protocol (interface
EmbedMessage in the source): type, version, requestId, timestamp,
nonce and an object payload. -/
structure EmbedMessage where
  type : String
  version : ℚ
  requestId : String
  timestamp : ℚ
  nonce : String
  payload : List (String × JSValue)

/-- Structural validation of an incoming postMessage payload, the
function validateIncomingMessage of the source: the input must be a
non-null object, its type a string starting with the venyu namespace,
its version strictly equal to the protocol version, requestId and
nonce non-empty strings, timestamp a positive number, and payload a
non-null object.  Returns the validated message, or none (the null
sentinel in the source) on any failure.  The checks of the source are
sequential early returns; since they are conjunctive, the simultaneous
match below returns some exactly when every check passes. -/
def validateIncomingMessage (data : JSValue) : Option EmbedMessage :=
  match data with
  | JSValue.obj fields =>
    match jsGetF fields "type" with
    | JSValue.str t =>
      if !(strStartsWith t MESSAGE_NAMESPACE) then none
      else
        match jsGetF fields "version" with
        | JSValue.num ver =>
          if ver ≠ PROTOCOL_VERSION then none
          else
            match jsGetF fields "requestId" with
            | JSValue.str rid =>
              if rid.length = 0 then none
              else
                match jsGetF fields "nonce" with
                | JSValue.str n =>
                  if n.length = 0 then none
                  else
                    match jsGetF fields "timestamp" with
                    | JSValue.num ts =>
                      if ts ≤ 0 then none
                      else
                        match jsGetF fields "payload" with
                        | JSValue.obj pl => some ⟨t, ver, rid, ts, n, pl⟩
                        | _ => none
                    | _ => none
                | _ => none
            | _ => none
        | _ => none
    | _ => none
  | _ => none

/-- The validity condition as the specification words it, independent
of the source: the raw value is a non-null record whose type is a
string carrying the expected namespace, whose version exactly equals
the protocol version constant, whose requestId and nonce are
non-empty strings, whose timestamp is a positive number, and whose
payload is a non-null record.  Used only to compare the source
validator against the specification text. -/
def specValidShape (raw : JSValue) : Bool :=
  (match raw with
   | JSValue.obj _ => true
   | _ => false) &&
  (match jsGet raw "type" with
   | JSValue.str t => strStartsWith t MESSAGE_NAMESPACE
   | _ => false) &&
  (match jsGet raw "version" with
   | JSValue.num x => x == PROTOCOL_VERSION
   | _ => false) &&
  (match jsGet raw "requestId" with
   | JSValue.str r => !(r == "")
   | _ => false) &&
  (match jsGet raw "nonce" with
   | JSValue.str n => !(n == "")
   | _ => false) &&
  (match jsGet raw "timestamp" with
   | JSValue.num x => decide (0 < x)
   | _ => false) &&
  (match jsGet raw "payload" with
   | JSValue.obj _ => true
   | _ => false)

/-- The environment a single bridge step runs in: the pieces of
browser state the bridge reads but does not own.  contentWindow is the
current iframe.contentWindow (none when detached), popupClosed is the
closed flag of the currently tracked popup window, openResult is what
window.open returns (none when the popup is blocked), requestId and
now feed buildMessage, parentOrigin is window.location.origin. -/
structure Env where
  contentWindow : Option Nat
  popupClosed : Bool
  openResult : Option Nat
  requestId : String
  now : ℚ
  parentOrigin : String

/-- The static configuration the bridge closes over: playUrl, the
expected message origin precomputed from it by extractOrigin (URL
parsing is a browser API, so the extracted origin is carried as a
field), the init locale and theme, and the embed session id. -/
structure Config where
  playUrl : String
  expectedOrigin : String
  locale : String
  theme : JSValue
  embedSessionId : String

/-- Constructs a protocol-compliant message (source function
buildMessage): stamps the protocol version, the freshly generated
request id and the current timestamp from the environment. -/
def buildMessage (env : Env) (type : String) (payload : List (String × JSValue))
    (nonce : String) : EmbedMessage :=
  ⟨type, PROTOCOL_VERSION, env.requestId, env.now, nonce, payload⟩

/-- State of the single-resolution readiness promise: pending until
settled, then resolved or rejected forever. -/
inductive PromiseState where
  | pending
  | resolved
  | rejected (reason : String)
deriving DecidableEq

/-- Resolving the readiness promise: a no-op once settled. -/
def resolveP : PromiseState → PromiseState
  | PromiseState.pending => PromiseState.resolved
  | s => s

/-- Rejecting the readiness promise: a no-op once settled. -/
def rejectP (reason : String) : PromiseState → PromiseState
  | PromiseState.pending => PromiseState.rejected reason
  | s => s

/-- The mutable session state of one bridge instance (MessagingState
in the source, plus the poll interval handle and the readiness promise
which the source keeps in adjacent closure variables).  The iframe
reference itself is static and lives in Env/Config. -/
structure BridgeState where
  nonce : Option String
  popup : Option Nat
  handshakeComplete : Bool
  destroyed : Bool
  pollActive : Bool
  readyState : PromiseState

/-- The state of a freshly constructed bridge. -/
def initialState : BridgeState :=
  ⟨none, none, false, false, false, PromiseState.pending⟩

/-- Observable side effects a bridge step can perform, in order of
occurrence: posting a message to a window (with its target origin),
invoking consumer callbacks, removing the message listener, closing
the popup, opening a window, setting the iframe height in pixels, and
scrolling the iframe into view. -/
inductive Effect where
  | postMessage (target : Nat) (msg : EmbedMessage) (targetOrigin : String)
  | onReady
  | onError (reason : String)
  | onBooked (bookingId status : String)
  | onAuthFallbackRequired (reason : String)
  | removeListener
  | closePopup (w : Nat)
  | openWindow (url : String)
  | setHeight (px : ℤ)
  | scrollIntoView

/-- sendToIframe of the source: silently does nothing when the bridge
is destroyed, when no (truthy) nonce is captured, or when the iframe
has no contentWindow; otherwise posts a freshly built message to the
contentWindow with the expected origin as target origin. -/
def sendToIframe (cfg : Config) (env : Env) (s : BridgeState)
    (type : String) (payload : List (String × JSValue)) : List Effect :=
  if s.destroyed then []
  else
    match s.nonce with
    | none => []
    | some n =>
      if n = "" then []
      else
        match env.contentWindow with
        | none => []
        | some w => [Effect.postMessage w (buildMessage env type payload n) cfg.expectedOrigin]

/-- The target address of the auth popup (URL construction of
openAuthPopup; percent-encoding of the query parameters is abstracted
away, no claim inspects the URL text).  The nonce parameter is added
only when a truthy nonce is captured. -/
def popupUrl (cfg : Config) (env : Env) (nonce : Option String) : String :=
  cfg.playUrl ++ "/embed/auth/popup?parentOrigin=" ++ env.parentOrigin ++
  (match nonce with
   | some n => if n = "" then "" else "&nonce=" ++ n
   | none => "") ++
  "&embedSessionId=" ++ cfg.embedSessionId

/-- The close-the-tracked-popup effect sequence the source emits from
the pattern `if (state.popup && !state.popup.closed) state.popup.close()`. -/
def closeTrackedPopup (env : Env) (s : BridgeState) : List Effect :=
  match s.popup with
  | some w => if env.popupClosed then [] else [Effect.closePopup w]
  | none => []

/-- openAuthPopup of the source: no-op when destroyed; otherwise stop
the poll, close any tracked open popup, call window.open on the popup
URL; when the open is refused (blocked) relay a synthetic popup-result
message with an empty token and the popup_blocked error to the iframe
and invoke the error callback, leaving the tracked reference as it
was; on success track the new window and start the closure poll. -/
def openAuthPopup (cfg : Config) (env : Env) (s : BridgeState) :
    BridgeState × List Effect :=
  if s.destroyed then (s, [])
  else
    let s1 : BridgeState := { s with pollActive := false }
    let closeEffs := closeTrackedPopup env s1
    let url := popupUrl cfg env s1.nonce
    match env.openResult with
    | none =>
      (s1,
        closeEffs ++ [Effect.openWindow url] ++
        sendToIframe cfg env s1 "venyu:auth:popup-result"
          [("resultToken", JSValue.str ""), ("error", JSValue.str "popup_blocked")] ++
        [Effect.onError "Auth popup was blocked by the browser"])
    | some w =>
      ({ s1 with popup := some w, pollActive := true },
        closeEffs ++ [Effect.openWindow url])

/-- handleResize of the source: ignored when the bridge is destroyed
or the height is not a number or is negative; otherwise sets the
iframe height to the ceiling of the height in pixels. -/
def handleResize (s : BridgeState) (height : JSValue) : List Effect :=
  if s.destroyed then []
  else
    match height with
    | JSValue.num h => if h < 0 then [] else [Effect.setHeight ⌈h⌉]
    | _ => []

/-- handlePopupMessage of the source: when the payload resultToken is
a non-empty string, relay it to the iframe as a popup-result message;
in every case stop the poll, close the tracked popup if still open,
and drop the reference. -/
def handlePopupMessage (cfg : Config) (env : Env) (s : BridgeState)
    (m : EmbedMessage) : BridgeState × List Effect :=
  let relay : List Effect :=
    match jsGetF m.payload "resultToken" with
    | JSValue.str tok =>
      if tok.length > 0 then
        sendToIframe cfg env s "venyu:auth:popup-result" [("resultToken", JSValue.str tok)]
      else []
    | _ => []
  let s1 : BridgeState := { s with pollActive := false }
  ({ s1 with popup := none }, relay ++ closeTrackedPopup env s1)

/-- Whether a JavaScript value is nullish (null or undefined), the
domain of the ?? operator. -/
def jsNullish : JSValue → Bool
  | JSValue.null => true
  | JSValue.undef => true
  | _ => false

/-- The theme sent with the init message: the configured theme, with
nullish values defaulted to the empty object (the ?? fallback of the
source). -/
def themeOrEmpty (t : JSValue) : JSValue :=
  if jsNullish t then JSValue.obj [] else t

/-- The error message raised when the iframe contentWindow is missing
during the handshake. -/
def contentWindowErr : String := "Iframe contentWindow is not available"

/-- handleReadyMessage of the source: duplicate handshakes are dropped
(the flag is checked before any mutation); the first ready message
sets handshakeComplete, captures the nonce, and — when the iframe
contentWindow is available — posts the init message echoing the nonce
in both the envelope field and the payload, invokes onReady and
resolves the readiness promise; when the contentWindow is unavailable
it instead invokes onError and rejects the readiness promise. -/
def handleReadyMessage (cfg : Config) (env : Env) (s : BridgeState)
    (m : EmbedMessage) : BridgeState × List Effect :=
  if s.handshakeComplete then (s, [])
  else
    let s1 : BridgeState := { s with handshakeComplete := true, nonce := some m.nonce }
    match env.contentWindow with
    | none =>
      ({ s1 with readyState := rejectP contentWindowErr s1.readyState },
        [Effect.onError contentWindowErr])
    | some w =>
      let initMessage := buildMessage env "venyu:init"
        [("nonce", JSValue.str m.nonce), ("locale", JSValue.str cfg.locale),
         ("theme", themeOrEmpty cfg.theme)] m.nonce
      ({ s1 with readyState := resolveP s1.readyState },
        [Effect.postMessage w initMessage cfg.expectedOrigin, Effect.onReady])

/-- The post-handshake type dispatch of handleMessage (its switch
statement): resize, booked, auth popup open, auth fallback, navigate;
unknown types are a silent no-op for forward compatibility. -/
def routeMessage (cfg : Config) (env : Env) (s : BridgeState)
    (m : EmbedMessage) : BridgeState × List Effect :=
  if m.type = "venyu:resize" then
    (s, match jsGetF m.payload "height" with
        | JSValue.num h => handleResize s (JSValue.num h)
        | _ => [])
  else if m.type = "venyu:booked" then
    (s, match jsGetF m.payload "bookingId", jsGetF m.payload "status" with
        | JSValue.str b, JSValue.str st => [Effect.onBooked b st]
        | _, _ => [])
  else if m.type = "venyu:auth:open-popup" then openAuthPopup cfg env s
  else if m.type = "venyu:auth:fallback-required" then
    (s, match jsGetF m.payload "reason" with
        | JSValue.str r => [Effect.onAuthFallbackRequired r]
        | _ => [])
  else if m.type = "venyu:navigate" then (s, [Effect.scrollIntoView])
  else (s, [])

/-- An incoming message event as the bridge sees it: declared origin,
source window (null possible) and raw data. -/
structure MessageEvent where
  origin : String
  source : Option Nat
  data : JSValue

/-- Whether the event source is the iframe contentWindow (JavaScript
strict equality, so a null source equals a null contentWindow). -/
def isFromIframeB (env : Env) (ev : MessageEvent) : Bool :=
  ev.source == env.contentWindow

/-- Whether the event source is the tracked, still-open popup. -/
def isFromPopupB (env : Env) (s : BridgeState) (ev : MessageEvent) : Bool :=
  match s.popup with
  | some w => !env.popupClosed && (ev.source == some w)
  | none => false

/-- handleMessage of the source, the single inbound gate: drop when
destroyed; drop on origin mismatch; drop unless the source is the
iframe or the tracked open popup; drop on structural invalidity; a
popup-sourced message is accepted only as a popup auth result with a
truthy, exactly matching session nonce; a frame-sourced ready message
goes to the handshake; every other frame message needs the handshake
complete and an exactly matching nonce, then routes by type. -/
def handleMessage (cfg : Config) (env : Env) (s : BridgeState)
    (ev : MessageEvent) : BridgeState × List Effect :=
  if s.destroyed then (s, [])
  else if ev.origin ≠ cfg.expectedOrigin then (s, [])
  else if !(isFromIframeB env ev) && !(isFromPopupB env s ev) then (s, [])
  else
    match validateIncomingMessage ev.data with
    | none => (s, [])
    | some message =>
      if isFromPopupB env s ev then
        if message.type ≠ "venyu:auth:popup-result" then (s, [])
        else
          match s.nonce with
          | none => (s, [])
          | some n =>
            if n = "" then (s, [])
            else if message.nonce ≠ n then (s, [])
            else handlePopupMessage cfg env s message
      else if message.type = "venyu:ready" then handleReadyMessage cfg env s message
      else if !s.handshakeComplete then (s, [])
      else
        match s.nonce with
        | none => (s, [])
        | some n =>
          if message.nonce ≠ n then (s, [])
          else routeMessage cfg env s message

/-- The destruction error message of the source. -/
def destroyMsg : String := "Embed widget was destroyed before ready"

/-- destroy of the source: a no-op when already destroyed; otherwise
set the destroyed flag, remove the message listener, stop the poll,
close the tracked popup if still open and drop the reference, and
reject the readiness promise if it has not settled. -/
def destroy (env : Env) (s : BridgeState) : BridgeState × List Effect :=
  if s.destroyed then (s, [])
  else
    ({ s with destroyed := true, pollActive := false, popup := none,
              readyState := rejectP destroyMsg s.readyState },
      Effect.removeListener :: closeTrackedPopup env s)

/-- Processing of a sequence of ready signals, each with the
environment it is handled in. -/
def processReadies (cfg : Config) (s : BridgeState) :
    List (Env × EmbedMessage) → BridgeState × List Effect
  | [] => (s, [])
  | (env, m) :: rest =>
    let r1 := handleReadyMessage cfg env s m
    let r2 := processReadies cfg r1.1 rest
    (r2.1, r1.2 ++ r2.2)

/-- Processing of a sequence of arbitrary inbound message events. -/
def runMessages (cfg : Config) (s : BridgeState) :
    List (Env × MessageEvent) → BridgeState × List Effect
  | [] => (s, [])
  | (env, ev) :: rest =>
    let r1 := handleMessage cfg env s ev
    let r2 := runMessages cfg r1.1 rest
    (r2.1, r1.2 ++ r2.2)

/-- Number of effects in a trace satisfying a predicate. -/
def countEff (p : Effect → Bool) (l : List Effect) : Nat :=
  (l.filter p).length

/-- Recognizer for the onReady callback effect. -/
def isOnReady : Effect → Bool
  | Effect.onReady => true
  | _ => false

/-- Recognizer for the onError callback effect. -/
def isOnError : Effect → Bool
  | Effect.onError _ => true
  | _ => false

/-- Recognizer for the listener-removal effect. -/
def isRemoveListener : Effect → Bool
  | Effect.removeListener => true
  | _ => false

/-- Recognizer for the popup-close effect. -/
def isClosePopup : Effect → Bool
  | Effect.closePopup _ => true
  | _ => false

/-- Interpretation of an effect trace on the iframe height attribute:
each setHeight overwrites the attribute, every other effect leaves it
alone. -/
def applyHeight (h0 : Option ℤ) (l : List Effect) : Option ℤ :=
  l.foldl (fun acc e =>
    match e with
    | Effect.setHeight n => some n
    | _ => acc) h0

/-- Once the handshake is complete, a further ready message is a
no-op. -/
theorem handleReadyMessage_complete (cfg : Config) (env : Env) (s : BridgeState)
    (m : EmbedMessage) (h : s.handshakeComplete = true) :
    handleReadyMessage cfg env s m = (s, []) := by
  simp [handleReadyMessage, h]

/-- Once the handshake is complete, an entire sequence of further
ready messages is a no-op. -/
theorem processReadies_complete (cfg : Config) (s : BridgeState)
    (l : List (Env × EmbedMessage)) (h : s.handshakeComplete = true) :
    processReadies cfg s l = (s, []) := by
  induction l with
  | nil => rfl
  | cons p rest ih =>
    obtain ⟨e, m⟩ := p
    simp [processReadies, handleReadyMessage_complete cfg e s m h, ih]

/-- C3: a message whose declared origin differs from the expected
origin precomputed from the play URL is dropped before any structural
or nonce check: no handler runs, no effect is emitted, and the session
state is returned unchanged. -/
theorem origin_mismatch_dropped (cfg : Config) (env : Env) (s : BridgeState)
    (ev : MessageEvent) (h : ev.origin ≠ cfg.expectedOrigin) :
    handleMessage cfg env s ev = (s, []) := by
  simp [handleMessage, h]

/-- Witness for origin_mismatch_dropped at a concrete spoofed-origin
event carrying a structurally perfect message. -/
theorem origin_mismatch_dropped_witness :
    handleMessage ⟨"https://play.venyu.ch", "https://play.venyu.ch", "de", JSValue.obj [], "sess"⟩
      ⟨some 7, false, none, "rid", 10, "https://host"⟩ initialState
      ⟨"https://evil.example", some 7,
        JSValue.obj
          [("type", JSValue.str "venyu:ready"), ("version", JSValue.num 1),
           ("requestId", JSValue.str "r1"), ("timestamp", JSValue.num 5),
           ("nonce", JSValue.str "abc"), ("payload", JSValue.obj [])]⟩ =
      (initialState, []) :=
  origin_mismatch_dropped _ _ _ _ (by decide)

/-- C6: a structurally invalid inbound payload causes no dispatch and
no state mutation, whatever the origin and source checks said. -/
theorem invalid_dropped (cfg : Config) (env : Env) (s : BridgeState)
    (ev : MessageEvent) (h : validateIncomingMessage ev.data = none) :
    handleMessage cfg env s ev = (s, []) := by
  unfold handleMessage
  split
  · rfl
  · split
    · rfl
    · split
      · rfl
      · simp [h]

/-- Witness for invalid_dropped: a wrong-version message from the
accepted origin and the iframe source is dropped without effect. -/
theorem invalid_dropped_witness :
    handleMessage ⟨"https://play.venyu.ch", "https://play.venyu.ch", "de", JSValue.obj [], "sess"⟩
      ⟨some 7, false, none, "rid", 10, "https://host"⟩ initialState
      ⟨"https://play.venyu.ch", some 7,
        JSValue.obj
          [("type", JSValue.str "venyu:ready"), ("version", JSValue.num 2),
           ("requestId", JSValue.str "r1"), ("timestamp", JSValue.num 5),
           ("nonce", JSValue.str "abc"), ("payload", JSValue.obj [])]⟩ =
      (initialState, []) :=
  invalid_dropped _ _ _ _ (by rfl)

/-- C9: the effect of the resize reactor on the iframe height
attribute: unchanged when the bridge is destroyed or the height is not
a non-negative number, otherwise set to the ceiling of the height. -/
theorem resize_sets_ceiling (s : BridgeState) (v : JSValue) (h0 : Option ℤ) :
    applyHeight h0 (handleResize s v) =
      if s.destroyed then h0
      else
        match v with
        | JSValue.num x => if x < 0 then h0 else some ⌈x⌉
        | _ => h0 := by
  by_cases hd : s.destroyed
  · simp [handleResize, applyHeight, hd]
  · cases v with
    | null => simp [handleResize, applyHeight, hd]
    | undef => simp [handleResize, applyHeight, hd]
    | bool b => simp [handleResize, applyHeight, hd]
    | str t => simp [handleResize, applyHeight, hd]
    | obj fs => simp [handleResize, applyHeight, hd]
    | num x => by_cases hx : x < 0 <;> simp [handleResize, applyHeight, hd, hx]

/-- A string has length zero exactly when it is the empty string. -/
theorem strLength_eq_zero (s : String) : s.length = 0 ↔ s = "" := by
  cases s with
  | mk data =>
    simp [String.length, List.length_eq_zero]
    constructor
    · intro h; subst h; rfl
    · intro h; have h2 := congrArg String.data h; simpa using h2

/-- Inversion of a successful structural validation: the validated
message is built from the object fields, and every check of the
validator held. -/
theorem validate_some_fields (d : JSValue) (m : EmbedMessage)
    (h : validateIncomingMessage d = some m) :
    jsGet d "type" = JSValue.str m.type ∧
    jsGet d "version" = JSValue.num m.version ∧
    jsGet d "requestId" = JSValue.str m.requestId ∧
    jsGet d "nonce" = JSValue.str m.nonce ∧
    jsGet d "timestamp" = JSValue.num m.timestamp ∧
    jsGet d "payload" = JSValue.obj m.payload ∧
    strStartsWith m.type MESSAGE_NAMESPACE = true ∧
    m.version = PROTOCOL_VERSION ∧
    m.requestId ≠ "" ∧ m.nonce ≠ "" ∧ 0 < m.timestamp := by
  cases d with
  | obj fields =>
    simp only [validateIncomingMessage] at h
    cases h1 : jsGetF fields "type" <;> rw [h1] at h <;> simp at h
    case str t =>
    obtain ⟨hns, h⟩ := h
    cases h2 : jsGetF fields "version" <;> rw [h2] at h <;> simp at h
    case num ver =>
    obtain ⟨hver, h⟩ := h
    cases h3 : jsGetF fields "requestId" <;> rw [h3] at h <;> simp at h
    case str rid =>
    obtain ⟨hrid, h⟩ := h
    cases h4 : jsGetF fields "nonce" <;> rw [h4] at h <;> simp at h
    case str n =>
    obtain ⟨hn, h⟩ := h
    cases h5 : jsGetF fields "timestamp" <;> rw [h5] at h <;> simp at h
    case num ts =>
    obtain ⟨hts, h⟩ := h
    cases h6 : jsGetF fields "payload" <;> rw [h6] at h <;> simp at h
    case obj pl =>
    subst h
    refine ⟨by simp [jsGet, h1], by simp [jsGet, h2], by simp [jsGet, h3],
            by simp [jsGet, h4], by simp [jsGet, h5], by simp [jsGet, h6],
            by simpa using hns, by simpa using hver, ?_, ?_, ?_⟩
    · intro hc
      exact hrid ((strLength_eq_zero rid).mpr hc)
    · intro hc
      exact hn ((strLength_eq_zero n).mpr hc)
    · exact hts
  | null => exact absurd h (by simp [validateIncomingMessage])
  | undef => exact absurd h (by simp [validateIncomingMessage])
  | bool b => exact absurd h (by simp [validateIncomingMessage])
  | num x => exact absurd h (by simp [validateIncomingMessage])
  | str t => exact absurd h (by simp [validateIncomingMessage])

/-- Characterization of the post-handshake gate for frame-sourced
messages, shared by the routing theorems below. -/
theorem frame_gate_aux (cfg : Config) (env : Env) (s : BridgeState)
    (ev : MessageEvent) (m : EmbedMessage)
    (hd : s.destroyed = false)
    (ho : ev.origin = cfg.expectedOrigin)
    (hsrc : isFromIframeB env ev = true)
    (hnp : isFromPopupB env s ev = false)
    (hv : validateIncomingMessage ev.data = some m)
    (hty : m.type ≠ "venyu:ready") :
    handleMessage cfg env s ev =
      if s.handshakeComplete = true ∧ s.nonce = some m.nonce
      then routeMessage cfg env s m
      else (s, []) := by
  by_cases hc : s.handshakeComplete = true
  · cases hn : s.nonce with
    | none => simp [handleMessage, hd, ho, hsrc, hnp, hv, hty, hc, hn]
    | some n =>
      by_cases hne : m.nonce = n
      · simp [handleMessage, hd, ho, hsrc, hnp, hv, hty, hc, hn, hne]
      · have hne2 : ¬(n = m.nonce) := fun hh => hne hh.symm
        simp [handleMessage, hd, ho, hsrc, hnp, hv, hty, hc, hn, hne, hne2]
  · simp [handleMessage, hd, ho, hsrc, hnp, hv, hty, hc]

/-- C2: after origin, source and structural checks, a frame-sourced
message of any type other than the ready signal is handed to the type
dispatch exactly when the handshake is complete and its nonce equals
the captured session nonce; otherwise it is dropped with no handler
invoked and no state change. -/
theorem frame_nonce_gate (cfg : Config) (env : Env) (s : BridgeState)
    (ev : MessageEvent) (m : EmbedMessage)
    (hd : s.destroyed = false)
    (ho : ev.origin = cfg.expectedOrigin)
    (hsrc : isFromIframeB env ev = true)
    (hnp : isFromPopupB env s ev = false)
    (hv : validateIncomingMessage ev.data = some m)
    (hty : m.type ≠ "venyu:ready") :
    handleMessage cfg env s ev =
      if s.handshakeComplete = true ∧ s.nonce = some m.nonce
      then routeMessage cfg env s m
      else (s, []) :=
  frame_gate_aux cfg env s ev m hd ho hsrc hnp hv hty

/-- Witness for frame_nonce_gate: a booked message with the matching
nonce after a completed handshake is dispatched. -/
theorem frame_nonce_gate_witness :
    handleMessage ⟨"https://play.venyu.ch", "https://play.venyu.ch", "de", JSValue.obj [], "sess"⟩
      ⟨some 7, false, none, "rid", 10, "https://host"⟩
      ⟨some "abc", none, true, false, false, PromiseState.resolved⟩
      ⟨"https://play.venyu.ch", some 7,
        JSValue.obj
          [("type", JSValue.str "venyu:booked"), ("version", JSValue.num 1),
           ("requestId", JSValue.str "r1"), ("timestamp", JSValue.num 5),
           ("nonce", JSValue.str "abc"),
           ("payload", JSValue.obj [("bookingId", JSValue.str "b1"),
                                    ("status", JSValue.str "confirmed")])]⟩ =
      if (true : Bool) = true ∧ (some "abc" : Option String) = some "abc"
      then routeMessage
        ⟨"https://play.venyu.ch", "https://play.venyu.ch", "de", JSValue.obj [], "sess"⟩
        ⟨some 7, false, none, "rid", 10, "https://host"⟩
        ⟨some "abc", none, true, false, false, PromiseState.resolved⟩
        ⟨"venyu:booked", 1, "r1", 5, "abc",
         [("bookingId", JSValue.str "b1"), ("status", JSValue.str "confirmed")]⟩
      else (⟨some "abc", none, true, false, false, PromiseState.resolved⟩, []) :=
  frame_nonce_gate
    ⟨"https://play.venyu.ch", "https://play.venyu.ch", "de", JSValue.obj [], "sess"⟩
    ⟨some 7, false, none, "rid", 10, "https://host"⟩
    ⟨some "abc", none, true, false, false, PromiseState.resolved⟩
    ⟨"https://play.venyu.ch", some 7,
      JSValue.obj
        [("type", JSValue.str "venyu:booked"), ("version", JSValue.num 1),
         ("requestId", JSValue.str "r1"), ("timestamp", JSValue.num 5),
         ("nonce", JSValue.str "abc"),
         ("payload", JSValue.obj [("bookingId", JSValue.str "b1"),
                                  ("status", JSValue.str "confirmed")])]⟩
    ⟨"venyu:booked", 1, "r1", 5, "abc",
     [("bookingId", JSValue.str "b1"), ("status", JSValue.str "confirmed")]⟩
    rfl rfl rfl rfl rfl (by decide)

/-- C4: a message from the tracked open popup is accepted exactly when
its type is the designated popup auth result type and a session nonce
exists and equals the message nonce; on acceptance it is relayed to
the popup-result handler, otherwise it is dropped. -/
theorem popup_gate (cfg : Config) (env : Env) (s : BridgeState)
    (ev : MessageEvent) (m : EmbedMessage) (w : Nat)
    (hd : s.destroyed = false)
    (ho : ev.origin = cfg.expectedOrigin)
    (hp : s.popup = some w)
    (hcl : env.popupClosed = false)
    (hsrc : ev.source = some w)
    (hv : validateIncomingMessage ev.data = some m) :
    handleMessage cfg env s ev =
      if m.type = "venyu:auth:popup-result" ∧ s.nonce = some m.nonce
      then handlePopupMessage cfg env s m
      else (s, []) := by
  have hmn : m.nonce ≠ "" := (validate_some_fields ev.data m hv).2.2.2.2.2.2.2.2.2.1
  have hpop : isFromPopupB env s ev = true := by
    simp [isFromPopupB, hp, hcl, hsrc]
  by_cases ht : m.type = "venyu:auth:popup-result"
  · cases hn : s.nonce with
    | none => simp [handleMessage, hd, ho, hpop, hv, ht, hn]
    | some n =>
      by_cases hn0 : n = ""
      · have hne2 : ¬(n = m.nonce) := by
          intro hh
          exact hmn (by rw [← hh, hn0])
        have hne3 : ¬("" = m.nonce) := fun hh => hmn hh.symm
        simp [handleMessage, hd, ho, hpop, hv, ht, hn, hn0, hne2, hne3]
      · by_cases hne : m.nonce = n
        · simp [handleMessage, hd, ho, hpop, hv, ht, hn, hn0, hne]
        · have hne2 : ¬(n = m.nonce) := fun hh => hne hh.symm
          simp [handleMessage, hd, ho, hpop, hv, ht, hn, hn0, hne, hne2]
  · simp [handleMessage, hd, ho, hpop, hv, ht]

/-- Witness for popup_gate: a popup auth result with the matching
session nonce is relayed to the popup-result handler. -/
theorem popup_gate_witness :
    handleMessage ⟨"https://play.venyu.ch", "https://play.venyu.ch", "de", JSValue.obj [], "sess"⟩
      ⟨some 7, false, none, "rid", 10, "https://host"⟩
      ⟨some "abc", some 5, true, false, true, PromiseState.resolved⟩
      ⟨"https://play.venyu.ch", some 5,
        JSValue.obj
          [("type", JSValue.str "venyu:auth:popup-result"), ("version", JSValue.num 1),
           ("requestId", JSValue.str "r1"), ("timestamp", JSValue.num 5),
           ("nonce", JSValue.str "abc"),
           ("payload", JSValue.obj [("resultToken", JSValue.str "tok_1")])]⟩ =
      if ("venyu:auth:popup-result" : String) = "venyu:auth:popup-result" ∧
         (some "abc" : Option String) = some "abc"
      then handlePopupMessage
        ⟨"https://play.venyu.ch", "https://play.venyu.ch", "de", JSValue.obj [], "sess"⟩
        ⟨some 7, false, none, "rid", 10, "https://host"⟩
        ⟨some "abc", some 5, true, false, true, PromiseState.resolved⟩
        ⟨"venyu:auth:popup-result", 1, "r1", 5, "abc",
         [("resultToken", JSValue.str "tok_1")]⟩
      else (⟨some "abc", some 5, true, false, true, PromiseState.resolved⟩, []) :=
  popup_gate
    ⟨"https://play.venyu.ch", "https://play.venyu.ch", "de", JSValue.obj [], "sess"⟩
    ⟨some 7, false, none, "rid", 10, "https://host"⟩
    ⟨some "abc", some 5, true, false, true, PromiseState.resolved⟩
    ⟨"https://play.venyu.ch", some 5,
      JSValue.obj
        [("type", JSValue.str "venyu:auth:popup-result"), ("version", JSValue.num 1),
         ("requestId", JSValue.str "r1"), ("timestamp", JSValue.num 5),
         ("nonce", JSValue.str "abc"),
         ("payload", JSValue.obj [("resultToken", JSValue.str "tok_1")])]⟩
    ⟨"venyu:auth:popup-result", 1, "r1", 5, "abc",
     [("resultToken", JSValue.str "tok_1")]⟩
    5 rfl rfl rfl rfl rfl rfl

/-- C5: structural validation succeeds exactly on the inputs the
specification describes (non-null object, namespaced string type,
exact protocol version, non-empty requestId and nonce, positive
numeric timestamp, non-null object payload), and when it succeeds the
returned message is exactly the input fields; it is a total function,
so no fault is ever raised. -/
theorem validate_structural_spec (v : JSValue) :
    (validateIncomingMessage v).isSome = specValidShape v ∧
    (∀ m, validateIncomingMessage v = some m →
      jsGet v "type" = JSValue.str m.type ∧
      jsGet v "version" = JSValue.num m.version ∧
      jsGet v "requestId" = JSValue.str m.requestId ∧
      jsGet v "nonce" = JSValue.str m.nonce ∧
      jsGet v "timestamp" = JSValue.num m.timestamp ∧
      jsGet v "payload" = JSValue.obj m.payload) := by
  constructor
  · cases v with
    | obj fields =>
      simp only [validateIncomingMessage, specValidShape, jsGet]
      rcases h1 : jsGetF fields "type" with _ | _ | b1 | x1 | t | f1 <;> simp [h1]
      by_cases hns : strStartsWith t MESSAGE_NAMESPACE = true
      case neg => simp [hns]
      simp only [hns, Bool.not_true, Bool.false_eq_true, if_false, Bool.true_and]
      rcases h2 : jsGetF fields "version" with _ | _ | b2 | ver | t2 | f2 <;> simp [h2]
      by_cases hv : ver = PROTOCOL_VERSION
      case neg => simp [hv]
      simp only [hv, ne_eq, not_true_eq_false, if_false, beq_self_eq_true, Bool.true_and]
      rcases h3 : jsGetF fields "requestId" with _ | _ | b3 | x3 | rid | f3 <;> simp [h3]
      by_cases hr : rid = ""
      case pos => simp [strLength_eq_zero, hr]
      have hbr : (rid == "") = false := beq_eq_false_iff_ne.mpr hr
      simp only [strLength_eq_zero, hr, if_false, hbr, Bool.not_false, Bool.true_and]
      rcases h4 : jsGetF fields "nonce" with _ | _ | b4 | x4 | n | f4 <;> simp [h4]
      by_cases hn : n = ""
      case pos => simp [strLength_eq_zero, hn]
      have hbn : (n == "") = false := beq_eq_false_iff_ne.mpr hn
      simp only [strLength_eq_zero, hn, if_false, hbn, Bool.not_false, Bool.true_and]
      rcases h5 : jsGetF fields "timestamp" with _ | _ | b5 | ts | t5 | f5 <;> simp [h5]
      rcases h6 : jsGetF fields "payload" with _ | _ | b6 | x6 | t6 | f6 <;> simp [h6]
      by_cases hts : ts ≤ 0
      case pos => simp [hts, not_lt.mpr hts]
      case neg => simp [hts, not_le.mp hts]
    | null => rfl
    | undef => rfl
    | bool b => rfl
    | num x => rfl
    | str t => rfl
  · intro m hm
    have h := validate_some_fields v m hm
    exact ⟨h.1, h.2.1, h.2.2.1, h.2.2.2.1, h.2.2.2.2.1, h.2.2.2.2.2.1⟩

/-- Witness for validate_structural_spec on a concrete valid message:
validation succeeds and returns the input fields. -/
theorem validate_structural_spec_witness :
    (validateIncomingMessage (JSValue.obj
        [("type", JSValue.str "venyu:ready"), ("version", JSValue.num 1),
         ("requestId", JSValue.str "r1"), ("timestamp", JSValue.num 5),
         ("nonce", JSValue.str "abc"), ("payload", JSValue.obj [])])).isSome =
      specValidShape (JSValue.obj
        [("type", JSValue.str "venyu:ready"), ("version", JSValue.num 1),
         ("requestId", JSValue.str "r1"), ("timestamp", JSValue.num 5),
         ("nonce", JSValue.str "abc"), ("payload", JSValue.obj [])]) ∧
    jsGet (JSValue.obj
        [("type", JSValue.str "venyu:ready"), ("version", JSValue.num 1),
         ("requestId", JSValue.str "r1"), ("timestamp", JSValue.num 5),
         ("nonce", JSValue.str "abc"), ("payload", JSValue.obj [])]) "nonce" =
      JSValue.str "abc" :=
  ⟨(validate_structural_spec (JSValue.obj
      [("type", JSValue.str "venyu:ready"), ("version", JSValue.num 1),
       ("requestId", JSValue.str "r1"), ("timestamp", JSValue.num 5),
       ("nonce", JSValue.str "abc"), ("payload", JSValue.obj [])])).1,
   ((validate_structural_spec (JSValue.obj
      [("type", JSValue.str "venyu:ready"), ("version", JSValue.num 1),
       ("requestId", JSValue.str "r1"), ("timestamp", JSValue.num 5),
       ("nonce", JSValue.str "abc"), ("payload", JSValue.obj [])])).2
     ⟨"venyu:ready", 1, "r1", 5, "abc", []⟩ rfl).2.2.2.1⟩

/-- C7: destroying twice equals destroying once (the second call is a
pure no-op), destroy forces the destroyed flag from any state, a
pending readiness promise is rejected with the destruction error, the
popup reference is dropped, and in a live session with an open popup
the listener is removed exactly once and the popup closed exactly
once. -/
theorem destroy_lifecycle (env e1 e2 : Env) (s t : BridgeState) (w : Nat)
    (hd : s.destroyed = false) (hp : s.popup = some w)
    (hc : env.popupClosed = false) (hr : s.readyState = PromiseState.pending) :
    destroy e2 (destroy e1 t).1 = ((destroy e1 t).1, []) ∧
    (destroy e1 t).1.destroyed = true ∧
    (destroy env s).1.readyState = PromiseState.rejected destroyMsg ∧
    (destroy env s).1.popup = none ∧
    countEff isRemoveListener (destroy env s).2 = 1 ∧
    countEff isClosePopup (destroy env s).2 = 1 := by
  refine ⟨?_, ?_, ?_, ?_, ?_, ?_⟩
  · by_cases ht : t.destroyed = true
    · simp [destroy, ht]
    · simp [destroy, ht]
  · by_cases ht : t.destroyed = true
    · simp [destroy, ht]
    · simp [destroy, ht]
  · simp [destroy, hd, hr, rejectP]
  · simp [destroy, hd]
  · simp [destroy, hd, countEff, isRemoveListener, isClosePopup, closeTrackedPopup, hp, hc]
  · simp [destroy, hd, countEff, isRemoveListener, isClosePopup, closeTrackedPopup, hp, hc]

/-- Witness for destroy_lifecycle at a concrete live session with an
open popup and a pending readiness promise. -/
theorem destroy_lifecycle_witness :
    destroy ⟨some 7, false, none, "rid", 10, "https://host"⟩
        (destroy ⟨some 7, false, none, "rid", 10, "https://host"⟩
          (⟨some "abc", some 5, true, false, true, PromiseState.pending⟩ : BridgeState)).1 =
      ((destroy ⟨some 7, false, none, "rid", 10, "https://host"⟩
          (⟨some "abc", some 5, true, false, true, PromiseState.pending⟩ : BridgeState)).1, []) ∧
    (destroy ⟨some 7, false, none, "rid", 10, "https://host"⟩
        (⟨some "abc", some 5, true, false, true, PromiseState.pending⟩ : BridgeState)).1.destroyed =
      true ∧
    (destroy ⟨some 7, false, none, "rid", 10, "https://host"⟩
        (⟨some "abc", some 5, true, false, true, PromiseState.pending⟩ : BridgeState)).1.readyState =
      PromiseState.rejected destroyMsg ∧
    (destroy ⟨some 7, false, none, "rid", 10, "https://host"⟩
        (⟨some "abc", some 5, true, false, true, PromiseState.pending⟩ : BridgeState)).1.popup =
      none ∧
    countEff isRemoveListener
      (destroy ⟨some 7, false, none, "rid", 10, "https://host"⟩
        (⟨some "abc", some 5, true, false, true, PromiseState.pending⟩ : BridgeState)).2 = 1 ∧
    countEff isClosePopup
      (destroy ⟨some 7, false, none, "rid", 10, "https://host"⟩
        (⟨some "abc", some 5, true, false, true, PromiseState.pending⟩ : BridgeState)).2 = 1 :=
  destroy_lifecycle ⟨some 7, false, none, "rid", 10, "https://host"⟩
    ⟨some 7, false, none, "rid", 10, "https://host"⟩
    ⟨some 7, false, none, "rid", 10, "https://host"⟩
    ⟨some "abc", some 5, true, false, true, PromiseState.pending⟩
    ⟨some "abc", some 5, true, false, true, PromiseState.pending⟩
    5 rfl rfl rfl rfl

/-- The first component of openAuthPopup: unchanged when destroyed,
otherwise the poll stops and the popup reference is replaced only on a
successful open. -/
theorem openAuthPopup_fst (cfg : Config) (env : Env) (s : BridgeState) :
    (openAuthPopup cfg env s).1 =
      if s.destroyed then s
      else
        match env.openResult with
        | none => { s with pollActive := false }
        | some w => { s with pollActive := true, popup := some w } := by
  by_cases hd : s.destroyed = true
  · simp [openAuthPopup, hd]
  · rcases ho : env.openResult with _ | w <;> simp [openAuthPopup, hd, ho]

/-- openAuthPopup never touches the readiness promise. -/
theorem openAuthPopup_readyState (cfg : Config) (env : Env) (s : BridgeState) :
    (openAuthPopup cfg env s).1.readyState = s.readyState := by
  rw [openAuthPopup_fst]
  by_cases hd : s.destroyed = true
  · simp [hd]
  · rcases ho : env.openResult with _ | w <;> simp [hd, ho]

/-- The first component of handlePopupMessage: the poll stops and the
popup reference is dropped. -/
theorem handlePopupMessage_fst (cfg : Config) (env : Env) (s : BridgeState)
    (m : EmbedMessage) :
    (handlePopupMessage cfg env s m).1 = { s with pollActive := false, popup := none } := rfl

/-- The type dispatch never touches the readiness promise. -/
theorem routeMessage_readyState (cfg : Config) (env : Env) (s : BridgeState)
    (m : EmbedMessage) :
    (routeMessage cfg env s m).1.readyState = s.readyState := by
  unfold routeMessage
  repeat' split <;> try rfl
  all_goals exact openAuthPopup_readyState cfg env s

/-- A settled-rejected readiness promise stays rejected across any
ready message. -/
theorem handleReadyMessage_rejected (cfg : Config) (env : Env) (s : BridgeState)
    (m : EmbedMessage) (e : String) (h : s.readyState = PromiseState.rejected e) :
    (handleReadyMessage cfg env s m).1.readyState = PromiseState.rejected e := by
  unfold handleReadyMessage
  by_cases hc : s.handshakeComplete = true
  · simp [hc, h]
  · rcases hw : env.contentWindow with _ | w <;> simp [hc, hw, h, rejectP, resolveP]

/-- A settled-rejected readiness promise stays rejected across any
inbound message. -/
theorem handleMessage_keeps_rejected (cfg : Config) (env : Env) (s : BridgeState)
    (ev : MessageEvent) (e : String) (h : s.readyState = PromiseState.rejected e) :
    (handleMessage cfg env s ev).1.readyState = PromiseState.rejected e := by
  unfold handleMessage
  repeat' split
  all_goals try exact h
  all_goals try exact handleReadyMessage_rejected cfg env s _ e h
  all_goals try (rw [routeMessage_readyState]; exact h)

/-- A settled-rejected readiness promise stays rejected across any
sequence of inbound messages: it can never subsequently resolve. -/
theorem runMessages_keeps_rejected (cfg : Config) (e : String) :
    ∀ (l : List (Env × MessageEvent)) (s : BridgeState),
      s.readyState = PromiseState.rejected e →
      (runMessages cfg s l).1.readyState = PromiseState.rejected e := by
  intro l
  induction l with
  | nil => intro s h; exact h
  | cons p rest ih =>
    intro s h
    obtain ⟨en, ev⟩ := p
    simp only [runMessages]
    exact ih _ (handleMessage_keeps_rejected cfg en s ev e h)

/-- Closing the tracked popup emits no error callback. -/
theorem filter_isOnError_close (env : Env) (s : BridgeState) :
    (closeTrackedPopup env s).filter isOnError = [] := by
  unfold closeTrackedPopup
  rcases hp : s.popup with _ | w
  · rfl
  · by_cases hc : env.popupClosed = true <;> simp [hc, isOnError]

/-- C1: for a sequence of ready signals, the first (with the
contentWindow available) completes the handshake, captures its nonce,
posts the init message with the nonce in both envelope and payload,
resolves the readiness promise, and invokes onReady exactly once;
every later ready signal is dropped without effect, so the final state
is exactly the post-first-signal state and the whole trace is exactly
the first signal's trace. -/
theorem ready_handshake_once (cfg : Config) (env : Env) (w : Nat) (m : EmbedMessage)
    (rest : List (Env × EmbedMessage)) (s0 : BridgeState)
    (h1 : s0.handshakeComplete = false) (h2 : s0.readyState = PromiseState.pending)
    (h3 : env.contentWindow = some w) :
    processReadies cfg s0 ((env, m) :: rest) =
      ({ s0 with handshakeComplete := true, nonce := some m.nonce,
                 readyState := PromiseState.resolved },
       [Effect.postMessage w
          (buildMessage env "venyu:init"
            [("nonce", JSValue.str m.nonce), ("locale", JSValue.str cfg.locale),
             ("theme", themeOrEmpty cfg.theme)] m.nonce) cfg.expectedOrigin,
        Effect.onReady]) ∧
    countEff isOnReady (processReadies cfg s0 ((env, m) :: rest)).2 = 1 := by
  have hr1 : handleReadyMessage cfg env s0 m =
      ({ s0 with handshakeComplete := true, nonce := some m.nonce,
                 readyState := PromiseState.resolved },
       [Effect.postMessage w
          (buildMessage env "venyu:init"
            [("nonce", JSValue.str m.nonce), ("locale", JSValue.str cfg.locale),
             ("theme", themeOrEmpty cfg.theme)] m.nonce) cfg.expectedOrigin,
        Effect.onReady]) := by
    simp [handleReadyMessage, h1, h3, h2, resolveP]
  have hrest := processReadies_complete cfg
    ({ s0 with handshakeComplete := true, nonce := some m.nonce,
               readyState := PromiseState.resolved } : BridgeState) rest rfl
  constructor
  · simp [processReadies, hr1, hrest]
  · simp [processReadies, hr1, hrest, countEff, isOnReady]

/-- Witness for ready_handshake_once: two ready signals with distinct
nonces; only the first takes effect. -/
theorem ready_handshake_once_witness :
    processReadies
      ⟨"https://play.venyu.ch", "https://play.venyu.ch", "de", JSValue.obj [], "sess"⟩
      initialState
      [(⟨some 7, false, none, "rid", 10, "https://host"⟩,
        ⟨"venyu:ready", 1, "r1", 5, "abc", []⟩),
       (⟨some 7, false, none, "rid2", 11, "https://host"⟩,
        ⟨"venyu:ready", 1, "r2", 6, "zzz", []⟩)] =
      ({ initialState with handshakeComplete := true, nonce := some "abc",
                           readyState := PromiseState.resolved },
       [Effect.postMessage 7
          (buildMessage ⟨some 7, false, none, "rid", 10, "https://host"⟩ "venyu:init"
            [("nonce", JSValue.str "abc"), ("locale", JSValue.str "de"),
             ("theme", themeOrEmpty (JSValue.obj []))] "abc") "https://play.venyu.ch",
        Effect.onReady]) ∧
    countEff isOnReady
      (processReadies
        ⟨"https://play.venyu.ch", "https://play.venyu.ch", "de", JSValue.obj [], "sess"⟩
        initialState
        [(⟨some 7, false, none, "rid", 10, "https://host"⟩,
          ⟨"venyu:ready", 1, "r1", 5, "abc", []⟩),
         (⟨some 7, false, none, "rid2", 11, "https://host"⟩,
          ⟨"venyu:ready", 1, "r2", 6, "zzz", []⟩)]).2 = 1 :=
  ready_handshake_once
    ⟨"https://play.venyu.ch", "https://play.venyu.ch", "de", JSValue.obj [], "sess"⟩
    ⟨some 7, false, none, "rid", 10, "https://host"⟩ 7
    ⟨"venyu:ready", 1, "r1", 5, "abc", []⟩
    [(⟨some 7, false, none, "rid2", 11, "https://host"⟩,
      ⟨"venyu:ready", 1, "r2", 6, "zzz", []⟩)]
    initialState rfl rfl rfl

/-- C8 counterexample: a popup-open request handled while an earlier
popup is tracked and still open, with window creation refused (the
openResult of the environment is none), leaves the stale popup
reference tracked: the claim that no popup window is tracked after a
blocked popup-open is false on this input. -/
theorem popup_blocked_counterexample :
    (openAuthPopup
        ⟨"https://play.venyu.ch", "https://play.venyu.ch", "de", JSValue.obj [], "sess"⟩
        ⟨some 7, false, none, "rid", 10, "https://host"⟩
        ⟨some "n1", some 5, true, false, true, PromiseState.resolved⟩).1.popup = some 5 ∧
    (openAuthPopup
        ⟨"https://play.venyu.ch", "https://play.venyu.ch", "de", JSValue.obj [], "sess"⟩
        ⟨some 7, false, none, "rid", 10, "https://host"⟩
        ⟨some "n1", some 5, true, false, true, PromiseState.resolved⟩).1.popup ≠ none :=
  ⟨rfl, by decide⟩

/-- C8 (amended): when a popup-open request is handled on a live
bridge and window creation is refused, with a non-empty session nonce
captured and the frame contentWindow available, the bridge posts the
synthetic popup-result message (empty resultToken, popup_blocked
error) to the frame, invokes the error callback exactly once, stops
the poll, and leaves the tracked-popup reference unchanged — in
particular, when no popup was tracked before, none is tracked
afterward. -/
theorem popup_blocked_behavior (cfg : Config) (env : Env) (s : BridgeState)
    (n : String) (cw : Nat)
    (hd : s.destroyed = false)
    (hb : env.openResult = none)
    (hn : s.nonce = some n) (hne : n ≠ "")
    (hw : env.contentWindow = some cw) :
    openAuthPopup cfg env s =
      ({ s with pollActive := false },
        closeTrackedPopup env { s with pollActive := false } ++
        [Effect.openWindow (popupUrl cfg env (some n)),
         Effect.postMessage cw
           (buildMessage env "venyu:auth:popup-result"
             [("resultToken", JSValue.str ""), ("error", JSValue.str "popup_blocked")] n)
           cfg.expectedOrigin,
         Effect.onError "Auth popup was blocked by the browser"]) ∧
    (openAuthPopup cfg env s).1.popup = s.popup ∧
    countEff isOnError (openAuthPopup cfg env s).2 = 1 := by
  have hmain : openAuthPopup cfg env s =
      ({ s with pollActive := false },
        closeTrackedPopup env { s with pollActive := false } ++
        [Effect.openWindow (popupUrl cfg env (some n)),
         Effect.postMessage cw
           (buildMessage env "venyu:auth:popup-result"
             [("resultToken", JSValue.str ""), ("error", JSValue.str "popup_blocked")] n)
           cfg.expectedOrigin,
         Effect.onError "Auth popup was blocked by the browser"]) := by
    simp [openAuthPopup, hd, hb, sendToIframe, hn, hne, hw]
  refine ⟨hmain, by rw [hmain], ?_⟩
  rw [hmain]
  unfold countEff
  rw [List.filter_append, filter_isOnError_close]
  simp [isOnError]

/-- Witness for popup_blocked_behavior: blocked popup-open on a live
session with no previously tracked popup. -/
theorem popup_blocked_behavior_witness :
    openAuthPopup
        ⟨"https://play.venyu.ch", "https://play.venyu.ch", "de", JSValue.obj [], "sess"⟩
        ⟨some 7, false, none, "rid", 10, "https://host"⟩
        (⟨some "n1", none, true, false, false, PromiseState.resolved⟩ : BridgeState) =
      ({ (⟨some "n1", none, true, false, false, PromiseState.resolved⟩ : BridgeState) with
           pollActive := false },
        closeTrackedPopup ⟨some 7, false, none, "rid", 10, "https://host"⟩
          { (⟨some "n1", none, true, false, false, PromiseState.resolved⟩ : BridgeState) with
              pollActive := false } ++
        [Effect.openWindow
           (popupUrl ⟨"https://play.venyu.ch", "https://play.venyu.ch", "de", JSValue.obj [], "sess"⟩
             ⟨some 7, false, none, "rid", 10, "https://host"⟩ (some "n1")),
         Effect.postMessage 7
           (buildMessage ⟨some 7, false, none, "rid", 10, "https://host"⟩
             "venyu:auth:popup-result"
             [("resultToken", JSValue.str ""), ("error", JSValue.str "popup_blocked")] "n1")
           "https://play.venyu.ch",
         Effect.onError "Auth popup was blocked by the browser"]) ∧
    (openAuthPopup
        ⟨"https://play.venyu.ch", "https://play.venyu.ch", "de", JSValue.obj [], "sess"⟩
        ⟨some 7, false, none, "rid", 10, "https://host"⟩
        (⟨some "n1", none, true, false, false, PromiseState.resolved⟩ : BridgeState)).1.popup =
      (⟨some "n1", none, true, false, false, PromiseState.resolved⟩ : BridgeState).popup ∧
    countEff isOnError
      (openAuthPopup
        ⟨"https://play.venyu.ch", "https://play.venyu.ch", "de", JSValue.obj [], "sess"⟩
        ⟨some 7, false, none, "rid", 10, "https://host"⟩
        (⟨some "n1", none, true, false, false, PromiseState.resolved⟩ : BridgeState)).2 = 1 :=
  popup_blocked_behavior
    ⟨"https://play.venyu.ch", "https://play.venyu.ch", "de", JSValue.obj [], "sess"⟩
    ⟨some 7, false, none, "rid", 10, "https://host"⟩
    ⟨some "n1", none, true, false, false, PromiseState.resolved⟩
    "n1" 7 rfl rfl rfl (by decide) rfl

/-- C10: a first ready signal accepted while the contentWindow is
unavailable sets handshakeComplete and captures the nonce before the
failure is detected, emits only the error callback and rejects the
readiness promise; afterwards every further ready signal is a no-op,
no sequence of inbound messages can ever resolve the readiness
promise, and a frame message bearing the captured nonce still passes
the handshake-complete gate into the type dispatch. -/
theorem ready_contentwindow_fail (cfg : Config) (env : Env) (s : BridgeState)
    (m : EmbedMessage)
    (hd : s.destroyed = false) (hp : s.popup = none)
    (h1 : s.handshakeComplete = false) (h2 : s.readyState = PromiseState.pending)
    (hw : env.contentWindow = none) :
    handleReadyMessage cfg env s m =
      ({ s with handshakeComplete := true, nonce := some m.nonce,
                readyState := PromiseState.rejected contentWindowErr },
       [Effect.onError contentWindowErr]) ∧
    (∀ (env2 : Env) (m2 : EmbedMessage),
      handleReadyMessage cfg env2
        { s with handshakeComplete := true, nonce := some m.nonce,
                 readyState := PromiseState.rejected contentWindowErr } m2 =
      ({ s with handshakeComplete := true, nonce := some m.nonce,
                readyState := PromiseState.rejected contentWindowErr }, [])) ∧
    (∀ (l : List (Env × MessageEvent)),
      (runMessages cfg
        { s with handshakeComplete := true, nonce := some m.nonce,
                 readyState := PromiseState.rejected contentWindowErr } l).1.readyState =
      PromiseState.rejected contentWindowErr) ∧
    (∀ (env2 : Env) (ev : MessageEvent) (m2 : EmbedMessage) (cw : Nat),
      env2.contentWindow = some cw → ev.origin = cfg.expectedOrigin →
      ev.source = some cw → validateIncomingMessage ev.data = some m2 →
      m2.type ≠ "venyu:ready" → m2.nonce = m.nonce →
      handleMessage cfg env2
        { s with handshakeComplete := true, nonce := some m.nonce,
                 readyState := PromiseState.rejected contentWindowErr } ev =
      routeMessage cfg env2
        { s with handshakeComplete := true, nonce := some m.nonce,
                 readyState := PromiseState.rejected contentWindowErr } m2) := by
  refine ⟨?_, ?_, ?_, ?_⟩
  · simp [handleReadyMessage, h1, hw, h2, rejectP]
  · intro env2 m2
    exact handleReadyMessage_complete cfg env2 _ m2 rfl
  · intro l
    exact runMessages_keeps_rejected cfg contentWindowErr l _ rfl
  · intro env2 ev m2 cw hcw ho hsrc hv hty hnc
    have hgate := frame_gate_aux cfg env2
      { s with handshakeComplete := true, nonce := some m.nonce,
               readyState := PromiseState.rejected contentWindowErr } ev m2
      (by simp [hd]) ho (by simp [isFromIframeB, hcw, hsrc]) (by simp [isFromPopupB, hp])
      hv hty
    rw [hgate, if_pos ⟨rfl, by rw [hnc]⟩]

/-- Witness for ready_contentwindow_fail: a ready signal arrives while
the contentWindow is detached. -/
theorem ready_contentwindow_fail_witness :
    (handleReadyMessage
        ⟨"https://play.venyu.ch", "https://play.venyu.ch", "de", JSValue.obj [], "sess"⟩
        ⟨none, false, none, "rid", 10, "https://host"⟩ initialState
        ⟨"venyu:ready", 1, "r1", 5, "abc", []⟩).1.handshakeComplete = true ∧
    (handleReadyMessage
        ⟨"https://play.venyu.ch", "https://play.venyu.ch", "de", JSValue.obj [], "sess"⟩
        ⟨none, false, none, "rid", 10, "https://host"⟩ initialState
        ⟨"venyu:ready", 1, "r1", 5, "abc", []⟩).1.readyState =
      PromiseState.rejected contentWindowErr :=
  ⟨by rw [(ready_contentwindow_fail
      ⟨"https://play.venyu.ch", "https://play.venyu.ch", "de", JSValue.obj [], "sess"⟩
      ⟨none, false, none, "rid", 10, "https://host"⟩ initialState
      ⟨"venyu:ready", 1, "r1", 5, "abc", []⟩ rfl rfl rfl rfl rfl).1],
   by rw [(ready_contentwindow_fail
      ⟨"https://play.venyu.ch", "https://play.venyu.ch", "de", JSValue.obj [], "sess"⟩
      ⟨none, false, none, "rid", 10, "https://host"⟩ initialState
      ⟨"venyu:ready", 1, "r1", 5, "abc", []⟩ rfl rfl rfl rfl rfl).1]⟩

end VenyuEmbed
